import Mathlib

/-!
Verification of the BLE advertisement decoding core of `ble-parser`:
the AD-structure scanner `extractServiceData16` (src/ble_ad.go) and the
H4 Pro vendor frame decoders `buildTH` / `buildInfo` dispatched by
`ParseH4ProToOutput` (src/decoders/moko_h4pro.go).

Modelling conventions:
  - Go `byte` values are `Nat` (payloads arrive from hex decoding, so
    every element is below 256; formulas mirror the Go arithmetic).
  - The Go `map[string]any` output is an association list
    `List (String × Value)` with pairwise-distinct keys, queried with
    `List.lookup`; `float64` sensor values are represented exactly as
    rationals (`ℚ`), matching the spec's decimal readings.
  - `(map, error)` returns become `Except String ...`; `buildTH` and
    `buildInfo` never fail in the source, so they return the list itself.
-/

/-- Values stored in the decoded-reading map (`map[string]any` in Go):
strings, integers, and rational sensor readings standing for `float64`. -/
inductive Value where
  | vStr (s : String)
  | vInt (n : Int)
  | vRat (q : ℚ)
  deriving DecidableEq, Repr

/-- Uppercase hex digit for a value below 16 (`0`–`9`, `A`–`F`). -/
def hexDigitU (n : Nat) : Char :=
  if n < 10 then Char.ofNat (48 + n) else Char.ofNat (55 + n)

/-- Go `fmt.Sprintf "%02X" b` for a byte: two uppercase hex digits. -/
def byteToHex2 (b : Nat) : String :=
  String.mk [hexDigitU (b % 256 / 16), hexDigitU (b % 16)]

/-- Value of one lowercase/uppercase hex character, as in Go `encoding/hex`. -/
def hexDigitVal (c : Char) : Option Nat :=
  if 48 ≤ c.toNat ∧ c.toNat ≤ 57 then some (c.toNat - 48)
  else if 97 ≤ c.toNat ∧ c.toNat ≤ 102 then some (c.toNat - 87)
  else if 65 ≤ c.toNat ∧ c.toNat ≤ 70 then some (c.toNat - 55)
  else none

/-- Go `hex.DecodeString`: pairs of hex characters to bytes; an odd
length or a non-hex character is an error (`none`). -/
def hexDecodeList : List Char → Option (List Nat)
  | [] => some []
  | [_] => none
  | a :: b :: rest =>
    match hexDigitVal a, hexDigitVal b, hexDecodeList rest with
    | some x, some y, some l => some ((x * 16 + y) :: l)
    | _, _, _ => none

/-- The scanning loop of `extractServiceData16` over the decoded bytes:
at each position read `length` then `type`; stop with `none` when fewer
than two bytes remain or the declared length is zero or overruns; on the
first structure of type 0x16 require `length ≥ 4` and return the UUID
text (most significant byte printed first), the frame type, and the rest
of the service data; otherwise skip `1 + length` bytes and continue. -/
def scanAD : List Nat → Option (String × Nat × List Nat)
  | [] => none
  | [_] => none
  | len :: typ :: rest =>
    if len = 0 ∨ rest.length + 1 < len then
      none
    else if typ = 22 then
      if len < 4 then
        none
      else
        let lsb := rest.getD 0 0
        let msb := rest.getD 1 0
        let u := byteToHex2 msb ++ byteToHex2 lsb
        match (rest.drop 2).take (len - 3) with
        | [] => some (u, 0, [])
        | f :: r => some (u, f, r)
    else
      scanAD (rest.drop (len - 1))
  termination_by p => p.length
  decreasing_by
    simp only [List.length_drop, List.length_cons]
    omega

/-- Whitespace recognized by `strings.TrimSpace` (ASCII range). -/
def isSpaceChar (c : Char) : Bool :=
  c = ' ' ∨ c = '\t' ∨ c = '\n' ∨ c = '\r' ∨ c = '\x0b' ∨ c = '\x0c'

/-- Go `strings.TrimSpace` on the character list: drop leading and
trailing whitespace. -/
def trimSpace (cs : List Char) : List Char :=
  ((cs.dropWhile isSpaceChar).reverse.dropWhile isSpaceChar).reverse

/-- `extractServiceData16`: hex-decode the trimmed payload string (an
error or empty result is "not found"), then run the AD scan. -/
def extractServiceData16 (payloadHex : String) : Option (String × Nat × List Nat) :=
  match hexDecodeList (trimSpace payloadHex.data) with
  | none => none
  | some raw => if raw = [] then none else scanAD raw

/-- `u16be`: big-endian unsigned 16-bit read at `off`, `none` when fewer
than two bytes remain (the Go version also advances the cursor by 2,
which the offset functions below account for). -/
def u16be (b : List Nat) (off : Nat) : Option Nat :=
  if off + 2 ≤ b.length then some (b.getD off 0 * 256 + b.getD (off + 1) 0) else none

/-- `i16be`: big-endian signed 16-bit read at `off` (the Go code builds
`int16(b[off])<<8 | int16(b[off+1])`, i.e. the sign-extended 16-bit
value). -/
def i16be (b : List Nat) (off : Nat) : Option Int :=
  (u16be b off).map fun v : Nat => if v < 32768 then (v : Int) else (v : Int) - 65536

/-- Common envelope shared by `buildTH` and `buildInfo`: message type,
caller timestamp, uppercased MAC, device name, and `rssi` when given. -/
def envelope (mt : String) (ts : Int) (mac deviceName : String) (rssi : Option Int) :
    List (String × Value) :=
  let base := [("message_type", Value.vStr mt), ("timestamp", Value.vInt ts),
    ("mac", Value.vStr mac.toUpper), ("device_name", Value.vStr deviceName)]
  match rssi with
  | some r => base ++ [("rssi", Value.vInt r)]
  | none => base

/-- Cursor position in `buildTH` after the ranging byte (consumed iff present). -/
def thOff1 (n : Nat) : Nat := if 0 + 1 ≤ n then 0 + 1 else 0

/-- Cursor position in `buildTH` after the advertising-interval byte. -/
def thOff2 (n : Nat) : Nat := if thOff1 n + 1 ≤ n then thOff1 n + 1 else thOff1 n

/-- Cursor position in `buildTH` after the temperature field. -/
def thOff3 (n : Nat) : Nat := if thOff2 n + 2 ≤ n then thOff2 n + 2 else thOff2 n

/-- Cursor position in `buildTH` after the humidity field. -/
def thOff4 (n : Nat) : Nat := if thOff3 n + 2 ≤ n then thOff3 n + 2 else thOff3 n

/-- Cursor position in `buildTH` after the battery-voltage field. -/
def thOff5 (n : Nat) : Nat := if thOff4 n + 2 ≤ n then thOff4 n + 2 else thOff4 n

/-- The sensor fields appended by `buildTH` in source order: advertising
interval (steps and ms), temperature (signed, / 10), humidity
(unsigned, / 10), battery millivolts, device type.  Each read is guarded
by the remaining length exactly as in the Go cursor walk; the embedded
MAC and any trailing bytes are read but never emitted. -/
def thFields (p : List Nat) : List (String × Value) :=
  (if thOff1 p.length + 1 ≤ p.length then
    [("adv_interval_steps", Value.vInt (p.getD (thOff1 p.length) 0)),
     ("adv_interval_ms", Value.vInt (p.getD (thOff1 p.length) 0 * 100))]
   else []) ++
  (match i16be p (thOff2 p.length) with
   | some v => [("temperature", Value.vRat ((v : ℚ) / 10))]
   | none => []) ++
  (match u16be p (thOff3 p.length) with
   | some v => [("humidity", Value.vRat ((v : ℚ) / 10))]
   | none => []) ++
  (match u16be p (thOff4 p.length) with
   | some v => [("batt_vol", Value.vInt (v : Int))]
   | none => []) ++
  (if thOff5 p.length + 1 ≤ p.length then
    [("device_type", Value.vInt (p.getD (thOff5 p.length) 0))]
   else [])

/-- `buildTH`: envelope tagged `h4pro-t&h` followed by the sensor fields. -/
def buildTH (ts : Int) (mac deviceName : String) (rssi : Option Int) (p : List Nat) :
    List (String × Value) :=
  envelope "h4pro-t&h" ts mac deviceName rssi ++ thFields p

/-- Go `fmt.Sprintf "%08b" v` for a byte: eight binary digits, most
significant bit first. -/
def bits8 (v : Nat) : String :=
  String.mk ((List.range 8).map fun i => if v / 2 ^ (7 - i) % 2 = 1 then '1' else '0')

/-- Cursor position in `buildInfo` after the ranging byte. -/
def infoOff1 (n : Nat) : Nat := if 0 + 1 ≤ n then 0 + 1 else 0

/-- Cursor position in `buildInfo` after the advertising-interval byte. -/
def infoOff2 (n : Nat) : Nat := if infoOff1 n + 1 ≤ n then infoOff1 n + 1 else infoOff1 n

/-- Cursor position in `buildInfo` after the battery-voltage field. -/
def infoOff3 (n : Nat) : Nat := if infoOff2 n + 2 ≤ n then infoOff2 n + 2 else infoOff2 n

/-- Cursor position in `buildInfo` after the device-property byte. -/
def infoOff4 (n : Nat) : Nat := if infoOff3 n + 1 ≤ n then infoOff3 n + 1 else infoOff3 n

/-- Cursor position in `buildInfo` after the switch-status byte. -/
def infoOff5 (n : Nat) : Nat := if infoOff4 n + 1 ≤ n then infoOff4 n + 1 else infoOff4 n

/-- Cursor position in `buildInfo` after the embedded MAC, which is
skipped only when all six of its bytes are present. -/
def infoOff6 (n : Nat) : Nat := if infoOff5 n + 6 ≤ n then infoOff5 n + 6 else infoOff5 n

/-- The fields appended by `buildInfo` in source order: advertising
interval, battery millivolts, device property (raw and bit string),
switch status (raw and bit string), then — after skipping the embedded
MAC when it fully fits — the firmware version rendered `V0.0.<v>`. -/
def infoFields (p : List Nat) : List (String × Value) :=
  (if infoOff1 p.length + 1 ≤ p.length then
    [("adv_interval_steps", Value.vInt (p.getD (infoOff1 p.length) 0)),
     ("adv_interval_ms", Value.vInt (p.getD (infoOff1 p.length) 0 * 100))]
   else []) ++
  (match u16be p (infoOff2 p.length) with
   | some v => [("batt_vol", Value.vInt (v : Int))]
   | none => []) ++
  (if infoOff3 p.length + 1 ≤ p.length then
    [("device_prop", Value.vInt (p.getD (infoOff3 p.length) 0)),
     ("device_prop_bits", Value.vStr (bits8 (p.getD (infoOff3 p.length) 0)))]
   else []) ++
  (if infoOff4 p.length + 1 ≤ p.length then
    [("switch_status", Value.vInt (p.getD (infoOff4 p.length) 0)),
     ("switch_status_bits", Value.vStr (bits8 (p.getD (infoOff4 p.length) 0)))]
   else []) ++
  (match u16be p (infoOff6 p.length) with
   | some v => [("firmware_ver", Value.vStr ("V0.0." ++ toString v))]
   | none => [])

/-- `buildInfo`: envelope tagged `h4pro-info` followed by the info fields. -/
def buildInfo (ts : Int) (mac deviceName : String) (rssi : Option Int) (p : List Nat) :
    List (String × Value) :=
  envelope "h4pro-info" ts mac deviceName rssi ++ infoFields p

/-- `ParseH4ProToOutput`: dispatch on the frame-type byte; 0x70 is the
temperature-and-humidity frame, 0x40 the info frame, anything else is an
error naming the code. -/
def ParseH4ProToOutput (frameType : Nat) (p : List Nat) (ts : Int)
    (mac deviceName : String) (rssi : Option Int) :
    Except String (List (String × Value)) :=
  if frameType = 112 then Except.ok (buildTH ts mac deviceName rssi p)
  else if frameType = 64 then Except.ok (buildInfo ts mac deviceName rssi p)
  else Except.error ("unknown H4 Pro frame_type 0x" ++ byteToHex2 frameType)

/-- Spec wording for the not-found condition of the scanner: the
contiguous walk from offset 0 either exhausts the payload without
meeting an AD structure of type 0x16, or meets a structure whose
declared length is 0 or whose data would overrun the payload before any
0x16 structure is matched. -/
def noServiceData16Walk : List Nat → Bool
  | [] => true
  | [_] => true
  | len :: typ :: rest =>
    if len = 0 ∨ rest.length + 1 < len then true
    else if typ = 22 then false
    else noServiceData16Walk (rest.drop (len - 1))
  termination_by p => p.length
  decreasing_by
    simp only [List.length_drop, List.length_cons]
    omega

/-- Spec wording for the temperature encoding: the 16-bit big-endian
two's-complement value of two bytes. -/
def twosComp16 (hi lo : Nat) : Int :=
  if hi * 256 + lo < 32768 then (hi * 256 + lo : Int) else (hi * 256 + lo : Int) - 65536

/-- Lookup distributes over append, preferring the left list. -/
theorem lookup_append (l₁ l₂ : List (String × Value)) (k : String) :
    (l₁ ++ l₂).lookup k = ((l₁.lookup k).or (l₂.lookup k)) := by
  induction l₁ with
  | nil => simp
  | cons e t ih =>
    obtain ⟨a, b⟩ := e
    cases h : k == a <;> simp [List.lookup_cons, h, ih]

/-- A key absent from every entry is not found. -/
theorem lookup_none_of_keys (l : List (String × Value)) (k : String)
    (h : ∀ e ∈ l, e.1 ≠ k) : l.lookup k = none := by
  induction l with
  | nil => simp
  | cons e t ih =>
    obtain ⟨a, b⟩ := e
    have ha : a ≠ k := h (a, b) (by simp)
    have hb : (k == a) = false := beq_eq_false_iff_ne.mpr (Ne.symm ha)
    simp only [List.lookup_cons, hb]
    exact ih fun e he => h e (by simp [he])

theorem envelope_lookup_message_type (mt : String) (ts : Int) (mac dn : String)
    (rssi : Option Int) :
    (envelope mt ts mac dn rssi).lookup "message_type" = some (Value.vStr mt) := by
  cases rssi <;> simp [envelope, List.lookup_cons]

theorem envelope_lookup_timestamp (mt : String) (ts : Int) (mac dn : String)
    (rssi : Option Int) :
    (envelope mt ts mac dn rssi).lookup "timestamp" = some (Value.vInt ts) := by
  cases rssi <;> simp [envelope, List.lookup_cons]

theorem envelope_lookup_mac (mt : String) (ts : Int) (mac dn : String)
    (rssi : Option Int) :
    (envelope mt ts mac dn rssi).lookup "mac" = some (Value.vStr mac.toUpper) := by
  cases rssi <;> simp [envelope, List.lookup_cons]

theorem envelope_lookup_device_name (mt : String) (ts : Int) (mac dn : String)
    (rssi : Option Int) :
    (envelope mt ts mac dn rssi).lookup "device_name" = some (Value.vStr dn) := by
  cases rssi <;> simp [envelope, List.lookup_cons]

theorem envelope_lookup_rssi (mt : String) (ts : Int) (mac dn : String)
    (rssi : Option Int) :
    (envelope mt ts mac dn rssi).lookup "rssi" = rssi.map Value.vInt := by
  cases rssi <;> simp [envelope, List.lookup_cons]

theorem envelope_lookup_other (mt : String) (ts : Int) (mac dn : String)
    (rssi : Option Int) (k : String) (h1 : k ≠ "message_type") (h2 : k ≠ "timestamp")
    (h3 : k ≠ "mac") (h4 : k ≠ "device_name") (h5 : k ≠ "rssi") :
    (envelope mt ts mac dn rssi).lookup k = none := by
  have e1 := beq_eq_false_iff_ne.mpr h1
  have e2 := beq_eq_false_iff_ne.mpr h2
  have e3 := beq_eq_false_iff_ne.mpr h3
  have e4 := beq_eq_false_iff_ne.mpr h4
  have e5 := beq_eq_false_iff_ne.mpr h5
  cases rssi <;> simp [envelope, List.lookup_cons, e1, e2, e3, e4, e5]

theorem u16be_eq (b : List Nat) (off : Nat) (h : off + 2 ≤ b.length) :
    u16be b off = some (b.getD off 0 * 256 + b.getD (off + 1) 0) := by
  unfold u16be
  rw [if_pos h]

theorem i16be_eq (b : List Nat) (off : Nat) (h : off + 2 ≤ b.length) :
    i16be b off = some (twosComp16 (b.getD off 0) (b.getD (off + 1) 0)) := by
  unfold i16be twosComp16
  rw [u16be_eq b off h, Option.map_some']
  simp only [Option.some.injEq]
  split_ifs with h1 <;> push_cast <;> ring

theorem thOff1_eq (n : Nat) (h : 1 ≤ n) : thOff1 n = 1 := by
  unfold thOff1
  rw [if_pos (by omega)]

theorem thOff2_eq (n : Nat) (h : 2 ≤ n) : thOff2 n = 2 := by
  unfold thOff2
  rw [thOff1_eq n (by omega), if_pos (by omega)]

theorem thOff3_eq (n : Nat) (h : 4 ≤ n) : thOff3 n = 4 := by
  unfold thOff3
  rw [thOff2_eq n (by omega), if_pos (by omega)]

theorem thOff4_eq (n : Nat) (h : 6 ≤ n) : thOff4 n = 6 := by
  unfold thOff4
  rw [thOff3_eq n (by omega), if_pos (by omega)]

theorem thOff5_eq (n : Nat) (h : 8 ≤ n) : thOff5 n = 8 := by
  unfold thOff5
  rw [thOff4_eq n (by omega), if_pos (by omega)]

theorem infoOff1_eq (n : Nat) (h : 1 ≤ n) : infoOff1 n = 1 := by
  unfold infoOff1
  rw [if_pos (by omega)]

theorem infoOff2_eq (n : Nat) (h : 2 ≤ n) : infoOff2 n = 2 := by
  unfold infoOff2
  rw [infoOff1_eq n (by omega), if_pos (by omega)]

theorem infoOff3_eq (n : Nat) (h : 4 ≤ n) : infoOff3 n = 4 := by
  unfold infoOff3
  rw [infoOff2_eq n (by omega), if_pos (by omega)]

theorem infoOff4_eq (n : Nat) (h : 5 ≤ n) : infoOff4 n = 5 := by
  unfold infoOff4
  rw [infoOff3_eq n (by omega), if_pos (by omega)]

theorem infoOff5_eq (n : Nat) (h : 6 ≤ n) : infoOff5 n = 6 := by
  unfold infoOff5
  rw [infoOff4_eq n (by omega), if_pos (by omega)]

theorem infoOff6_eq_full (n : Nat) (h : 12 ≤ n) : infoOff6 n = 12 := by
  unfold infoOff6
  rw [infoOff5_eq n (by omega), if_pos (by omega)]

theorem infoOff6_eq_trunc (n : Nat) (h : 6 ≤ n) (h2 : n < 12) : infoOff6 n = 6 := by
  unfold infoOff6
  rw [infoOff5_eq n (by omega), if_neg (by omega)]

/-- A temperature-and-humidity payload of nine or more bytes yields the
full field list, reading at the fixed offsets 1 to 8. -/
theorem thFields_eq_of_ge9 (p : List Nat) (h : 9 ≤ p.length) :
    thFields p =
      [("adv_interval_steps", Value.vInt (p.getD 1 0)),
       ("adv_interval_ms", Value.vInt (p.getD 1 0 * 100)),
       ("temperature", Value.vRat ((twosComp16 (p.getD 2 0) (p.getD 3 0) : ℚ) / 10)),
       ("humidity", Value.vRat (((p.getD 4 0 * 256 + p.getD 5 0 : Nat) : ℚ) / 10)),
       ("batt_vol", Value.vInt ((p.getD 6 0 * 256 + p.getD 7 0 : Nat) : Int)),
       ("device_type", Value.vInt (p.getD 8 0))] := by
  unfold thFields
  rw [thOff1_eq p.length (by omega), thOff2_eq p.length (by omega),
    thOff3_eq p.length (by omega), thOff4_eq p.length (by omega),
    thOff5_eq p.length (by omega)]
  rw [i16be_eq p 2 (by omega), u16be_eq p 4 (by omega), u16be_eq p 6 (by omega)]
  rw [if_pos (by omega), if_pos (by omega)]
  simp

/-- An info payload of fourteen or more bytes yields the full field
list, with the embedded MAC skipped and the firmware version read at
offsets 12 and 13. -/
theorem infoFields_eq_of_ge14 (p : List Nat) (h : 14 ≤ p.length) :
    infoFields p =
      [("adv_interval_steps", Value.vInt (p.getD 1 0)),
       ("adv_interval_ms", Value.vInt (p.getD 1 0 * 100)),
       ("batt_vol", Value.vInt ((p.getD 2 0 * 256 + p.getD 3 0 : Nat) : Int)),
       ("device_prop", Value.vInt (p.getD 4 0)),
       ("device_prop_bits", Value.vStr (bits8 (p.getD 4 0))),
       ("switch_status", Value.vInt (p.getD 5 0)),
       ("switch_status_bits", Value.vStr (bits8 (p.getD 5 0))),
       ("firmware_ver", Value.vStr ("V0.0." ++ toString (p.getD 12 0 * 256 + p.getD 13 0)))] := by
  unfold infoFields
  rw [infoOff1_eq p.length (by omega), infoOff2_eq p.length (by omega),
    infoOff3_eq p.length (by omega), infoOff4_eq p.length (by omega),
    infoOff6_eq_full p.length (by omega)]
  rw [u16be_eq p 2 (by omega), u16be_eq p 12 (by omega)]
  rw [if_pos (by omega), if_pos (by omega), if_pos (by omega)]
  simp

/-- An info payload of eight to eleven bytes leaves the cursor before
the truncated embedded MAC, so the firmware version is read from
offsets 6 and 7. -/
theorem infoFields_eq_of_8_11 (p : List Nat) (h8 : 8 ≤ p.length) (h11 : p.length ≤ 11) :
    infoFields p =
      [("adv_interval_steps", Value.vInt (p.getD 1 0)),
       ("adv_interval_ms", Value.vInt (p.getD 1 0 * 100)),
       ("batt_vol", Value.vInt ((p.getD 2 0 * 256 + p.getD 3 0 : Nat) : Int)),
       ("device_prop", Value.vInt (p.getD 4 0)),
       ("device_prop_bits", Value.vStr (bits8 (p.getD 4 0))),
       ("switch_status", Value.vInt (p.getD 5 0)),
       ("switch_status_bits", Value.vStr (bits8 (p.getD 5 0))),
       ("firmware_ver", Value.vStr ("V0.0." ++ toString (p.getD 6 0 * 256 + p.getD 7 0)))] := by
  unfold infoFields
  rw [infoOff1_eq p.length (by omega), infoOff2_eq p.length (by omega),
    infoOff3_eq p.length (by omega), infoOff4_eq p.length (by omega),
    infoOff6_eq_trunc p.length (by omega) (by omega)]
  rw [u16be_eq p 2 (by omega), u16be_eq p 6 (by omega)]
  rw [if_pos (by omega), if_pos (by omega), if_pos (by omega)]
  simp

/-- Every key appended by `thFields` is one of the six sensor keys. -/
theorem thFields_key_mem (p : List Nat) :
    ∀ e ∈ thFields p, e.1 ∈ (["adv_interval_steps", "adv_interval_ms", "temperature",
      "humidity", "batt_vol", "device_type"] : List String) := by
  intro e he
  simp only [thFields, List.mem_append] at he
  rcases he with ((((h | h) | h) | h) | h) <;> split at h <;> simp_all
  all_goals (rcases h with h | h <;> simp_all)

/-- Every key appended by `infoFields` is one of the eight info keys. -/
theorem infoFields_key_mem (p : List Nat) :
    ∀ e ∈ infoFields p, e.1 ∈ (["adv_interval_steps", "adv_interval_ms", "batt_vol",
      "device_prop", "device_prop_bits", "switch_status", "switch_status_bits",
      "firmware_ver"] : List String) := by
  intro e he
  simp only [infoFields, List.mem_append] at he
  rcases he with ((((h | h) | h) | h) | h) <;> split at h <;> simp_all
  all_goals (rcases h with h | h <;> simp_all)

/-- C2: whenever the contiguous walk from offset 0 either exhausts the
payload without meeting an AD structure of type 0x16, or meets a
structure whose declared length is 0 or whose data would overrun the
payload before any 0x16 structure, the scanner reports not-found, so no
structure preceding such a malformed break is ever matched. -/
theorem c2_scanner_not_found (p : List Nat) (h : noServiceData16Walk p = true) :
    scanAD p = none := by
  induction p using scanAD.induct with
  | case1 => simp [scanAD]
  | case2 head => simp [scanAD]
  | case3 len typ rest h1 => simp [scanAD, h1]
  | case4 len rest h1 h2 => simp [noServiceData16Walk, h1] at h
  | case5 len rest h1 h2 h3 => simp [noServiceData16Walk, h1] at h
  | case6 len rest h1 h2 f r h3 => simp [noServiceData16Walk, h1] at h
  | case7 len typ rest h1 h2 ih =>
    simp only [noServiceData16Walk, if_neg h1, if_neg h2] at h
    simp only [scanAD, if_neg h1, if_neg h2]
    exact ih h

/-- Witness for C2 at a concrete payload with one non-0x16 structure. -/
theorem c2_scanner_not_found_witness :
    noServiceData16Walk [2, 1, 6] = true ∧ scanAD [2, 1, 6] = none :=
  ⟨by simp [noServiceData16Walk], c2_scanner_not_found [2, 1, 6] (by simp [noServiceData16Walk])⟩

/-- C3: whenever the scanner returns, the UUID text is the big-endian
hex rendering of the two wire bytes taken least-significant-byte first:
the matched 0x16 structure sits in the payload as
`len :: 0x16 :: lsb :: msb :: tail` with `len ≥ 4`, and the byte `msb`
(at offset+3) is printed before `lsb` (at offset+2), in uppercase; in
particular wire bytes 0xAB then 0xFE render as "FEAB". -/
theorem c3_uuid_byte_order (p : List Nat) (u : String) (ft : Nat) (r : List Nat)
    (h : scanAD p = some (u, ft, r)) :
    (∃ len lsb msb tail, (len :: 22 :: lsb :: msb :: tail) <:+ p ∧ 4 ≤ len ∧
      u = byteToHex2 msb ++ byteToHex2 lsb) ∧
    byteToHex2 254 ++ byteToHex2 171 = "FEAB" := by
  refine ⟨?_, by decide⟩
  induction p using scanAD.induct with
  | case1 => simp [scanAD] at h
  | case2 head => simp [scanAD] at h
  | case3 len typ rest h1 => simp [scanAD, h1] at h
  | case4 len rest h1 h2 => simp [scanAD, h1, h2] at h
  | case5 len rest h1 h2 h3 =>
    exfalso
    push_neg at h1
    rw [List.take_eq_nil_iff] at h3
    rcases h3 with h3 | h3
    · omega
    · have hd := congrArg List.length h3
      simp [List.length_drop] at hd
      omega
  | case6 len rest h1 h2 f r0 h3 =>
    have hr : 3 ≤ rest.length := by
      push_neg at h1
      omega
    rcases rest with _ | ⟨lsb, rest2⟩
    · simp at hr
    rcases rest2 with _ | ⟨msb, tail⟩
    · simp at hr
    simp only [scanAD, if_neg h1, if_neg h2] at h
    rw [if_pos trivial, h3] at h
    simp only [Option.some.injEq, Prod.mk.injEq] at h
    refine ⟨len, lsb, msb, tail, List.suffix_rfl, by omega, ?_⟩
    have hu := h.1
    simp [List.getD] at hu
    exact hu.symm
  | case7 len typ rest h1 h2 ih =>
    simp only [scanAD, if_neg h1, if_neg h2] at h
    obtain ⟨len2, lsb, msb, tail, hsuf, hlen, hu⟩ := ih h
    exact ⟨len2, lsb, msb, tail,
      hsuf.trans ((List.drop_suffix _ _).trans
        ((List.suffix_cons typ rest).trans (List.suffix_cons len (typ :: rest)))),
      hlen, hu⟩

/-- Witness for C3 at a payload whose service-data UUID wire bytes are
0xAB then 0xFE. -/
theorem c3_uuid_byte_order_witness :
    (∃ len lsb msb tail, (len :: 22 :: lsb :: msb :: tail) <:+ [4, 22, 171, 254, 112] ∧
      4 ≤ len ∧ "FEAB" = byteToHex2 msb ++ byteToHex2 lsb) ∧
    byteToHex2 254 ++ byteToHex2 171 = "FEAB" :=
  c3_uuid_byte_order [4, 22, 171, 254, 112] "FEAB" 112 []
    (by simp [scanAD]; decide)

/-- C7: any frame-type byte other than 0x70 and 0x40 makes the H4 Pro
dispatch return an error naming the code in hex, with no mapping; the
result does not depend on the payload bytes at all. -/
theorem c7_unknown_frame_type (ft : Nat) (p : List Nat) (ts : Int) (mac dn : String)
    (rssi : Option Int) (h1 : ft ≠ 112) (h2 : ft ≠ 64) :
    ParseH4ProToOutput ft p ts mac dn rssi =
      Except.error ("unknown H4 Pro frame_type 0x" ++ byteToHex2 ft) := by
  simp [ParseH4ProToOutput, h1, h2]

/-- Witness for C7 at frame type 0xFF. -/
theorem c7_unknown_frame_type_witness :
    ParseH4ProToOutput 255 [1, 2, 3] 0 "m" "d" none =
      Except.error "unknown H4 Pro frame_type 0xFF" :=
  (c7_unknown_frame_type 255 [1, 2, 3] 0 "m" "d" none (by decide) (by decide)).trans
    (congrArg Except.error (by decide))

theorem thFields_lookup_rssi (p : List Nat) : (thFields p).lookup "rssi" = none :=
  lookup_none_of_keys _ _ fun e he => by
    have hm := thFields_key_mem p e he
    simp at hm
    rcases hm with h | h | h | h | h | h <;> simp [h]

theorem infoFields_lookup_rssi (p : List Nat) : (infoFields p).lookup "rssi" = none :=
  lookup_none_of_keys _ _ fun e he => by
    have hm := infoFields_key_mem p e he
    simp at hm
    rcases hm with h | h | h | h | h | h | h | h <;> simp [h]

/-- C9: for every vendor payload (the empty one included) and every
caller context, both decoders produce a mapping holding `message_type`,
the caller-supplied `timestamp`, the uppercased `mac`, `device_name`,
and the key `rssi` exactly when the caller supplied a signal strength. -/
theorem c9_envelope_fields (ts : Int) (mac dn : String) (rssi : Option Int) (p : List Nat) :
    ((buildTH ts mac dn rssi p).lookup "message_type" = some (Value.vStr "h4pro-t&h") ∧
     (buildTH ts mac dn rssi p).lookup "timestamp" = some (Value.vInt ts) ∧
     (buildTH ts mac dn rssi p).lookup "mac" = some (Value.vStr mac.toUpper) ∧
     (buildTH ts mac dn rssi p).lookup "device_name" = some (Value.vStr dn) ∧
     (buildTH ts mac dn rssi p).lookup "rssi" = rssi.map Value.vInt) ∧
    ((buildInfo ts mac dn rssi p).lookup "message_type" = some (Value.vStr "h4pro-info") ∧
     (buildInfo ts mac dn rssi p).lookup "timestamp" = some (Value.vInt ts) ∧
     (buildInfo ts mac dn rssi p).lookup "mac" = some (Value.vStr mac.toUpper) ∧
     (buildInfo ts mac dn rssi p).lookup "device_name" = some (Value.vStr dn) ∧
     (buildInfo ts mac dn rssi p).lookup "rssi" = rssi.map Value.vInt) := by
  refine ⟨⟨?_, ?_, ?_, ?_, ?_⟩, ?_, ?_, ?_, ?_, ?_⟩ <;>
    simp [buildTH, buildInfo, lookup_append, envelope_lookup_message_type,
      envelope_lookup_timestamp, envelope_lookup_mac, envelope_lookup_device_name,
      envelope_lookup_rssi, thFields_lookup_rssi, infoFields_lookup_rssi]

theorem u16be_none (b : List Nat) (off : Nat) (h : b.length < off + 2) :
    u16be b off = none := by
  unfold u16be
  rw [if_neg (by omega)]

/-- C4: for every temperature-and-humidity payload of length at least 4,
the emitted temperature is s / 10 where s is the 16-bit big-endian
two's-complement value of the bytes at offsets 2 and 3. -/
theorem c4_temperature_signed (ts : Int) (mac dn : String) (rssi : Option Int)
    (p : List Nat) (h : 4 ≤ p.length) :
    (buildTH ts mac dn rssi p).lookup "temperature" =
      some (Value.vRat ((twosComp16 (p.getD 2 0) (p.getD 3 0) : ℚ) / 10)) := by
  rw [buildTH, lookup_append, envelope_lookup_other "h4pro-t&h" ts mac dn rssi
    "temperature" (by decide) (by decide) (by decide) (by decide) (by decide),
    Option.none_or]
  unfold thFields
  rw [thOff2_eq p.length (by omega), i16be_eq p 2 (by omega)]
  split_ifs <;> simp [lookup_append, List.lookup_cons]

/-- Witness for C4: bytes 0x00 0x96 at offsets 2 and 3 give 15.0, bytes
0xFF 0x9C give -10.0. -/
theorem c4_temperature_signed_witness :
    (buildTH 0 "m" "d" none [0, 0, 0, 150]).lookup "temperature" =
      some (Value.vRat 15) ∧
    (buildTH 0 "m" "d" none [0, 0, 255, 156]).lookup "temperature" =
      some (Value.vRat (-10)) :=
  ⟨(c4_temperature_signed 0 "m" "d" none [0, 0, 0, 150] (by decide)).trans
      (by norm_num [twosComp16]),
   (c4_temperature_signed 0 "m" "d" none [0, 0, 255, 156] (by decide)).trans
      (by norm_num [twosComp16])⟩

/-- C5: a temperature-and-humidity payload of exactly 4 bytes decodes
without error to a mapping holding `message_type`, `adv_interval_steps`,
`adv_interval_ms` and `temperature`, with `humidity`, `batt_vol` and
`device_type` absent. -/
theorem c5_partial_tail_four_bytes (ts : Int) (mac dn : String) (rssi : Option Int)
    (p : List Nat) (h : p.length = 4) :
    ParseH4ProToOutput 112 p ts mac dn rssi = Except.ok (buildTH ts mac dn rssi p) ∧
    ((buildTH ts mac dn rssi p).lookup "message_type").isSome = true ∧
    ((buildTH ts mac dn rssi p).lookup "adv_interval_steps").isSome = true ∧
    ((buildTH ts mac dn rssi p).lookup "adv_interval_ms").isSome = true ∧
    ((buildTH ts mac dn rssi p).lookup "temperature").isSome = true ∧
    (buildTH ts mac dn rssi p).lookup "humidity" = none ∧
    (buildTH ts mac dn rssi p).lookup "batt_vol" = none ∧
    (buildTH ts mac dn rssi p).lookup "device_type" = none := by
  have o3 : thOff3 p.length = 4 := thOff3_eq p.length (by omega)
  have o4 : thOff4 p.length = 4 := by
    unfold thOff4
    rw [o3, if_neg (by omega)]
  have o5 : thOff5 p.length = 4 := by
    unfold thOff5
    rw [o4, if_neg (by omega)]
  have hf : thFields p =
      [("adv_interval_steps", Value.vInt (p.getD 1 0)),
       ("adv_interval_ms", Value.vInt (p.getD 1 0 * 100)),
       ("temperature", Value.vRat ((twosComp16 (p.getD 2 0) (p.getD 3 0) : ℚ) / 10))] := by
    unfold thFields
    rw [thOff1_eq p.length (by omega), thOff2_eq p.length (by omega), o3, o4, o5,
      i16be_eq p 2 (by omega), u16be_none p 4 (by omega),
      if_pos (show 1 + 1 ≤ p.length by omega), if_neg (show ¬(4 + 1 ≤ p.length) by omega)]
    simp
  cases rssi <;>
    refine ⟨by simp [ParseH4ProToOutput], ?_, ?_, ?_, ?_, ?_, ?_, ?_⟩ <;>
      simp [buildTH, hf, envelope, lookup_append, List.lookup_cons]

/-- Witness for C5 at the four-byte payload 00 05 00 96. -/
theorem c5_partial_tail_four_bytes_witness :
    ParseH4ProToOutput 112 [0, 5, 0, 150] 0 "m" "d" none =
      Except.ok (buildTH 0 "m" "d" none [0, 5, 0, 150]) ∧
    ((buildTH 0 "m" "d" none [0, 5, 0, 150]).lookup "message_type").isSome = true ∧
    ((buildTH 0 "m" "d" none [0, 5, 0, 150]).lookup "adv_interval_steps").isSome = true ∧
    ((buildTH 0 "m" "d" none [0, 5, 0, 150]).lookup "adv_interval_ms").isSome = true ∧
    ((buildTH 0 "m" "d" none [0, 5, 0, 150]).lookup "temperature").isSome = true ∧
    (buildTH 0 "m" "d" none [0, 5, 0, 150]).lookup "humidity" = none ∧
    (buildTH 0 "m" "d" none [0, 5, 0, 150]).lookup "batt_vol" = none ∧
    (buildTH 0 "m" "d" none [0, 5, 0, 150]).lookup "device_type" = none :=
  c5_partial_tail_four_bytes 0 "m" "d" none [0, 5, 0, 150] (by decide)

/-- C6: two temperature-and-humidity payloads of length at least 9 that
agree on their first 9 bytes decode to equal mappings under the same
caller context, and both calls succeed; the embedded MAC and trailing
bytes never influence the output. -/
theorem c6_tail_independence (ts : Int) (mac dn : String) (rssi : Option Int)
    (p q : List Nat) (hp : 9 ≤ p.length) (hq : 9 ≤ q.length)
    (hpq : p.take 9 = q.take 9) :
    buildTH ts mac dn rssi p = buildTH ts mac dn rssi q ∧
    ParseH4ProToOutput 112 p ts mac dn rssi = Except.ok (buildTH ts mac dn rssi p) ∧
    ParseH4ProToOutput 112 q ts mac dn rssi = Except.ok (buildTH ts mac dn rssi q) := by
  have hg : ∀ i, i < 9 → p.getD i 0 = q.getD i 0 := by
    intro i hi
    have hc := congrArg (fun l => l.getD i 0) hpq
    simpa [List.getD_eq_getElem?_getD, List.getElem?_take, hi] using hc
  refine ⟨?_, by simp [ParseH4ProToOutput], by simp [ParseH4ProToOutput]⟩
  rw [buildTH, buildTH, thFields_eq_of_ge9 p hp, thFields_eq_of_ge9 q hq,
    hg 1 (by omega), hg 2 (by omega), hg 3 (by omega), hg 4 (by omega),
    hg 5 (by omega), hg 6 (by omega), hg 7 (by omega), hg 8 (by omega)]

/-- Witness for C6: a ten-byte payload and its nine-byte prefix decode
identically. -/
theorem c6_tail_independence_witness :
    buildTH 0 "m" "d" none [0, 5, 0, 150, 1, 244, 11, 184, 1, 99] =
      buildTH 0 "m" "d" none [0, 5, 0, 150, 1, 244, 11, 184, 1] ∧
    ParseH4ProToOutput 112 [0, 5, 0, 150, 1, 244, 11, 184, 1, 99] 0 "m" "d" none =
      Except.ok (buildTH 0 "m" "d" none [0, 5, 0, 150, 1, 244, 11, 184, 1, 99]) ∧
    ParseH4ProToOutput 112 [0, 5, 0, 150, 1, 244, 11, 184, 1] 0 "m" "d" none =
      Except.ok (buildTH 0 "m" "d" none [0, 5, 0, 150, 1, 244, 11, 184, 1]) :=
  c6_tail_independence 0 "m" "d" none
    [0, 5, 0, 150, 1, 244, 11, 184, 1, 99] [0, 5, 0, 150, 1, 244, 11, 184, 1]
    (by decide) (by decide) (by decide)

/-- C8: for every info payload long enough to reach the firmware field
through the full layout (length at least 14), the emitted firmware
string is "V0.0." followed by the decimal rendering of the 16-bit
big-endian unsigned value at offsets 12 and 13. -/
theorem c8_firmware_rendering (ts : Int) (mac dn : String) (rssi : Option Int)
    (p : List Nat) (h : 14 ≤ p.length) :
    (buildInfo ts mac dn rssi p).lookup "firmware_ver" =
      some (Value.vStr ("V0.0." ++ toString (p.getD 12 0 * 256 + p.getD 13 0))) := by
  cases rssi <;>
    simp [buildInfo, infoFields_eq_of_ge14 p h, envelope, lookup_append, List.lookup_cons]

/-- Witness for C8: firmware value 7 renders "V0.0.7" and value 0
renders "V0.0.0". -/
theorem c8_firmware_rendering_witness :
    (buildInfo 0 "m" "d" none
        [0, 5, 11, 184, 3, 1, 170, 187, 204, 221, 238, 255, 0, 7]).lookup "firmware_ver" =
      some (Value.vStr "V0.0.7") ∧
    (buildInfo 0 "m" "d" none
        [0, 5, 11, 184, 3, 1, 170, 187, 204, 221, 238, 255, 0, 0]).lookup "firmware_ver" =
      some (Value.vStr "V0.0.0") :=
  ⟨(c8_firmware_rendering 0 "m" "d" none
      [0, 5, 11, 184, 3, 1, 170, 187, 204, 221, 238, 255, 0, 7] (by decide)).trans (by decide),
   (c8_firmware_rendering 0 "m" "d" none
      [0, 5, 11, 184, 3, 1, 170, 187, 204, 221, 238, 255, 0, 0] (by decide)).trans (by decide)⟩

/-- C10: for every info payload of total length 8 to 11 bytes the
embedded MAC is not skipped, and the firmware string is computed from
the bytes at offsets 6 and 7 — the first two bytes of the truncated
embedded-MAC field — as a 16-bit big-endian value. -/
theorem c10_truncated_mac_firmware (ts : Int) (mac dn : String) (rssi : Option Int)
    (p : List Nat) (h8 : 8 ≤ p.length) (h11 : p.length ≤ 11) :
    (buildInfo ts mac dn rssi p).lookup "firmware_ver" =
      some (Value.vStr ("V0.0." ++ toString (p.getD 6 0 * 256 + p.getD 7 0))) := by
  cases rssi <;>
    simp [buildInfo, infoFields_eq_of_8_11 p h8 h11, envelope, lookup_append,
      List.lookup_cons]

/-- Witness for C10 at an eight-byte info payload whose bytes 6 and 7
are 0x01 0x2C, rendering firmware 300. -/
theorem c10_truncated_mac_firmware_witness :
    (buildInfo 0 "m" "d" none [0, 5, 11, 184, 3, 1, 1, 44]).lookup "firmware_ver" =
      some (Value.vStr "V0.0.300") :=
  (c10_truncated_mac_firmware 0 "m" "d" none [0, 5, 11, 184, 3, 1, 1, 44]
    (by decide) (by decide)).trans (by decide)

/-- Running the scanner on the spec's end-to-end sample advertisement:
the AD structure of type 0x16 declares length 9, so the service data
spans only the eight bytes AB FE 70 05 00 96 01 F4, leaving the rest
bytes 05 00 96 01 F4. -/
theorem extract_sample_eq :
    extractServiceData16 "0201060916ABFE7005009601F40BB801AABBCCDDEEFF" =
      some ("FEAB", 112, [5, 0, 150, 1, 244]) := by
  have hd : hexDecodeList
      (trimSpace "0201060916ABFE7005009601F40BB801AABBCCDDEEFF".data) =
      some [2, 1, 6, 9, 22, 171, 254, 112, 5, 0, 150, 1, 244, 11, 184, 1,
        170, 187, 204, 221, 238, 255] := by decide
  have h0 : scanAD [2, 1, 6, 9, 22, 171, 254, 112, 5, 0, 150, 1, 244, 11, 184, 1,
      170, 187, 204, 221, 238, 255] =
      some (byteToHex2 254 ++ byteToHex2 171, 112, [5, 0, 150, 1, 244]) := by
    simp [scanAD]
  have hs : scanAD [2, 1, 6, 9, 22, 171, 254, 112, 5, 0, 150, 1, 244, 11, 184, 1,
      170, 187, 204, 221, 238, 255] = some ("FEAB", 112, [5, 0, 150, 1, 244]) := by
    rw [h0]
    decide
  simp [extractServiceData16, hd, hs]

/-- The temperature-and-humidity decode of the sample rest bytes
05 00 96 01 F4: the ranging byte eats 0x05, the interval step count is
0, the temperature word is 0x9601 (-27135), the humidity and battery
reads do not fit, and the device-type guard still fires on the last
byte. -/
theorem thFields_sample_eq :
    thFields [5, 0, 150, 1, 244] =
      [("adv_interval_steps", Value.vInt 0), ("adv_interval_ms", Value.vInt 0),
       ("temperature", Value.vRat (-27135 / 10)), ("device_type", Value.vInt 244)] := by
  simp [thFields, thOff1, thOff2, thOff3, thOff4, thOff5, u16be, i16be]

/-- C1 counterexample: on the spec's sample advertisement the scanner
does return UUID "FEAB", frame type 0x70 and rest bytes 05 00 96 01 F4,
but the decoder maps those to adv_interval_steps = 0, not 5 as claimed
(the declared AD length 9 cuts the service data short). -/
theorem c1_end_to_end_counterexample :
    extractServiceData16 "0201060916ABFE7005009601F40BB801AABBCCDDEEFF" =
      some ("FEAB", 112, [5, 0, 150, 1, 244]) ∧
    (buildTH 1700000000000 "aabbccddeeff" "sensor" none [5, 0, 150, 1, 244]).lookup
      "adv_interval_steps" = some (Value.vInt 0) ∧
    some (Value.vInt 0) ≠ some (Value.vInt 5) ∧
    (buildTH 1700000000000 "aabbccddeeff" "sensor" none [5, 0, 150, 1, 244]).lookup
      "humidity" = none := by
  refine ⟨extract_sample_eq, ?_, by decide, ?_⟩ <;>
    simp [buildTH, thFields_sample_eq, envelope, lookup_append, List.lookup_cons]

/-- C1 amended: on the sample advertisement the scanner returns ok with
UUID "FEAB", frame type 0x70 and rest bytes 05 00 96 01 F4, and the
temperature-and-humidity decoder maps those bytes (under any caller
context) to message_type "h4pro-t&h", adv_interval_steps = 0,
adv_interval_ms = 0, temperature = -2713.5 and device_type = 244, with
humidity and batt_vol absent. -/
theorem c1_end_to_end_amended (ts : Int) (mac dn : String) (rssi : Option Int) :
    extractServiceData16 "0201060916ABFE7005009601F40BB801AABBCCDDEEFF" =
      some ("FEAB", 112, [5, 0, 150, 1, 244]) ∧
    (buildTH ts mac dn rssi [5, 0, 150, 1, 244]).lookup "message_type" =
      some (Value.vStr "h4pro-t&h") ∧
    (buildTH ts mac dn rssi [5, 0, 150, 1, 244]).lookup "adv_interval_steps" =
      some (Value.vInt 0) ∧
    (buildTH ts mac dn rssi [5, 0, 150, 1, 244]).lookup "adv_interval_ms" =
      some (Value.vInt 0) ∧
    (buildTH ts mac dn rssi [5, 0, 150, 1, 244]).lookup "temperature" =
      some (Value.vRat (-27135 / 10)) ∧
    (buildTH ts mac dn rssi [5, 0, 150, 1, 244]).lookup "device_type" =
      some (Value.vInt 244) ∧
    (buildTH ts mac dn rssi [5, 0, 150, 1, 244]).lookup "humidity" = none ∧
    (buildTH ts mac dn rssi [5, 0, 150, 1, 244]).lookup "batt_vol" = none := by
  refine ⟨extract_sample_eq, ?_, ?_, ?_, ?_, ?_, ?_, ?_⟩ <;>
    cases rssi <;>
      simp [buildTH, thFields_sample_eq, envelope, lookup_append, List.lookup_cons]
